import Mathlib

/-
  Verification of the session-backed authentication core of `test-nest`.

  The TypeScript source (AuthService, UsersService, CategoriesService,
  JwtStrategy) is shallowly embedded as pure Lean functions over an explicit
  database state `DB`.  Conventions of the embedding:

  * Time is `Nat` (milliseconds); every operation receives the current
    instant `now` explicitly (the source calls `new Date()`).
  * `bcrypt` is modelled as an ideal collision-free hash: `Hashed α` wraps
    the hashed value and `bcryptCompare a h` succeeds exactly when `a` is the
    value whose hash was stored (`bcrypt.compare` semantics under the
    standard no-collision assumption).
  * JWTs are records carrying the signed payload `{sub, tokenVersion, jti}`,
    the expiry instant and the signing secret; `jwtVerify` checks secret and
    expiry, mirroring `jwtService.verify`.
  * `randomUUID()` and Prisma-generated row ids are modelled as explicit
    parameters; uniqueness that the source obtains from UUID randomness is a
    hypothesis where a theorem needs it.
  * Prisma stores are association lists; `findUnique` is `List.find?` on the
    unique key.  `prisma.$transaction` is atomic by the Prisma contract: it
    is modelled as a single state update guarded by a transaction-failure
    oracle (`txFail`), so either every write of the transaction is applied
    or the whole call raises and the state is unchanged.  A unique-key
    violation inside the transaction likewise fails the whole transaction.
  * Thrown Nest exceptions become `Except.error` values of `AuthError`;
    an error carries no new state, matching the fact that every source
    operation performs its reads first and all writes inside the single
    terminal statement/transaction.
-/

namespace TestNest

/-- Platform enum from the Prisma schema: `SessionPlatform = WEB | MOBILE`. -/
inductive SessionPlatform where
  | WEB
  | MOBILE
deriving DecidableEq, Repr

/-- Ideal model of a bcrypt hash of a value of type `α`. -/
structure Hashed (α : Type) where
  val : α
deriving DecidableEq, Repr

/-- Model of `bcrypt.hash` (the salt/cost are abstracted away). -/
def bcryptHash {α : Type} (a : α) : Hashed α := ⟨a⟩

/-- Model of `bcrypt.compare`: succeeds iff `a` is the hashed value. -/
def bcryptCompare {α : Type} [DecidableEq α] (a : α) (h : Hashed α) : Bool :=
  decide (a = h.val)

/-- JWT payload signed by `signAccess` / `signRefresh`: `{sub, tokenVersion, jti}`. -/
structure JwtPayload where
  sub : String
  tokenVersion : Nat
  jti : String
deriving DecidableEq, Repr

/-- A signed JWT: payload plus the expiry instant and signing secret. -/
structure Jwt where
  payload : JwtPayload
  exp : Nat
  secret : String
deriving DecidableEq, Repr

/-- Configuration: `JWT_SECRET`, `ACCESS_TOKEN_EXPIRES_IN`, `REFRESH_TOKEN_EXPIRES_IN`
(the two expiry durations already converted to milliseconds, as
`calculateExpiration` does with the `s/m/h/d` suffix strings). -/
structure Config where
  secret : String
  accessTtl : Nat
  refreshTtl : Nat
deriving DecidableEq, Repr

/-- Model of `jwtService.sign(payload, {expiresIn})`. -/
def signToken (cfg : Config) (p : JwtPayload) (now ttl : Nat) : Jwt :=
  ⟨p, now + ttl, cfg.secret⟩

/-- AuthService.signAccess: short-lived token (`ACCESS_TOKEN_EXPIRES_IN`). -/
def signAccess (cfg : Config) (p : JwtPayload) (now : Nat) : Jwt :=
  signToken cfg p now cfg.accessTtl

/-- AuthService.signRefresh: long-lived token (`REFRESH_TOKEN_EXPIRES_IN`). -/
def signRefresh (cfg : Config) (p : JwtPayload) (now : Nat) : Jwt :=
  signToken cfg p now cfg.refreshTtl

/-- Model of `jwtService.verify`: checks the signature (same secret) and
that the token is not expired, returning the payload. -/
def jwtVerify (cfg : Config) (now : Nat) (t : Jwt) : Option JwtPayload :=
  if t.secret = cfg.secret ∧ now < t.exp then some t.payload else none

/-- User row of the Prisma schema (fields this core reads or writes). -/
structure User where
  id : String
  email : String
  password : Hashed String
  tokenVersion : Nat
  createdAt : Nat
deriving DecidableEq, Repr

/-- Session row of the Prisma schema. -/
structure Session where
  id : String
  userId : String
  jti : String
  refreshHash : Hashed Jwt
  platform : SessionPlatform
  deviceLabel : Option String
  userAgent : Option String
  ip : Option String
  expiresAt : Nat
  revokedAt : Option Nat
  replacedByJti : Option String
  createdAt : Nat
  lastUsedAt : Nat
deriving DecidableEq, Repr

/-- Category row (fields used by `CategoriesService.createDefaultCategories`). -/
structure Category where
  id : String
  name : String
  color : String
  description : String
  userId : String
  deletedAt : Option Nat
deriving DecidableEq, Repr

/-- The persistent state: the three Prisma tables this core touches. -/
structure DB where
  users : List User
  sessions : List Session
  categories : List Category
deriving DecidableEq, Repr

/-- Nest exception taxonomy used by the auth core.  `internal` stands for an
uncaught store/runtime error surfacing as a 500. -/
inductive AuthError where
  | unauthorized (msg : String)
  | conflict (msg : String)
  | badRequest (msg : String)
  | internal (msg : String)
deriving DecidableEq, Repr

/-- Decidable equality for `Except` results, so concrete runs can be
checked by evaluation. -/
instance {ε α : Type} [DecidableEq ε] [DecidableEq α] :
    DecidableEq (Except ε α) := fun x y =>
  match x, y with
  | .error a, .error b =>
      if h : a = b then .isTrue (by rw [h])
      else .isFalse (fun hc => h (Except.error.inj hc))
  | .error _, .ok _ => .isFalse (fun hc => Except.noConfusion hc)
  | .ok _, .error _ => .isFalse (fun hc => Except.noConfusion hc)
  | .ok a, .ok b =>
      if h : a = b then .isTrue (by rw [h])
      else .isFalse (fun hc => h (Except.ok.inj hc))

/-- Model of JavaScript `email.toLowerCase()`: per-character lowercasing. -/
def lowercase (s : String) : String := ⟨s.data.map Char.toLower⟩

/-- UsersService.findByEmail: `findUnique({where: {email: email.toLowerCase()}})`. -/
def findByEmail (db : DB) (email : String) : Option User :=
  db.users.find? (fun u => decide (u.email = lowercase email))

/-- UsersService.findById: `findUnique({where: {id}})`. -/
def findUserById (db : DB) (id : String) : Option User :=
  db.users.find? (fun u => decide (u.id = id))

/-- Prisma `session.findUnique({where: {jti}})`. -/
def findSession (db : DB) (jti : String) : Option Session :=
  db.sessions.find? (fun s => decide (s.jti = jti))

/-- UsersService.bumpTokenVersion: `prisma.user.update({where:{id},
data:{tokenVersion:{increment:1}}})` — a single atomic increment of the
matching row; Prisma throws (`P2025`) when no row matches. -/
def bumpTokenVersion (db : DB) (id : String) : Except AuthError DB :=
  match findUserById db id with
  | none => .error (.internal "Record to update not found")
  | some _ =>
      .ok { db with
              users := db.users.map (fun u =>
                if u.id = id then { u with tokenVersion := u.tokenVersion + 1 } else u) }

/-- The five default categories created for a new user
(`CategoriesService.createDefaultCategories`). -/
def defaultCategoryData : List (String × String × String) :=
  [ ("Personal", "#3B82F6", "Tareas personales"),
    ("Trabajo", "#10B981", "Tareas de trabajo"),
    ("Salud", "#EF4444", "Salud y ejercicio"),
    ("Hogar", "#F59E0B", "Tareas del hogar"),
    ("Estudio", "#8B5CF6", "Estudio y aprendizaje") ]

/-- CategoriesService.createDefaultCategories: creates the five defaults in
one `$transaction`; any failure is caught inside the method, logged, and an
empty list is returned with no rows written.  `storeFail` is the
store-failure oracle for the transaction; `idF` supplies the generated row
ids. -/
def createDefaultCategories (db : DB) (userId : String) (idF : Nat → String)
    (storeFail : Bool) : List Category × DB :=
  if storeFail then ([], db)
  else
    let cats := (defaultCategoryData.zip (List.range defaultCategoryData.length)).map
      (fun x => { id := idF x.2, name := x.1.1, color := x.1.2.1,
                  description := x.1.2.2, userId := userId, deletedAt := none : Category })
    (cats, { db with categories := db.categories ++ cats })

/-- Result of AuthService.register: the `{id, email, createdAt}` projection. -/
structure RegisterResult where
  id : String
  email : String
  createdAt : Nat
deriving DecidableEq, Repr

/-- AuthService.register: conflict when `findByEmail` hits, otherwise hash
the password, create the user (`tokenVersion = 0`, lowercased email) and
best-effort create the default categories.  `newUserId` models the
Prisma-generated id, `catIdF`/`catFail` are passed to the categories
collaborator. -/
def register (db : DB) (email password : String) (newUserId : String) (now : Nat)
    (catIdF : Nat → String) (catFail : Bool) : Except AuthError (RegisterResult × DB) :=
  match findByEmail db email with
  | some _ => .error (.conflict "User with this email already exists")
  | none =>
      let user : User :=
        { id := newUserId, email := lowercase email,
          password := bcryptHash password, tokenVersion := 0, createdAt := now }
      let db1 : DB := { db with users := db.users ++ [user] }
      let res := createDefaultCategories db1 user.id catIdF catFail
      .ok ({ id := user.id, email := user.email, createdAt := user.createdAt }, res.2)

/-- LoginDto: `{email, password, platform, deviceLabel?}`. -/
structure LoginDto where
  email : String
  password : String
  platform : SessionPlatform
  deviceLabel : Option String
deriving DecidableEq, Repr

/-- SessionMetadata extracted from the request by the controller. -/
structure SessionMetadata where
  platform : SessionPlatform
  userAgent : Option String
  ip : Option String
  deviceLabel : Option String
deriving DecidableEq, Repr

/-- Result of AuthService.login. -/
structure LoginResult where
  accessToken : Jwt
  refreshToken : Jwt
  userId : String
  userEmail : String
deriving DecidableEq, Repr

/-- AuthService.login: credential check (identical `Unauthorized` for
unknown email and wrong password), then create the chain-root session and
sign both tokens.  `jti` models `randomUUID()`, `sid` the generated row id;
a unique-key collision on insert would abort the store call (`internal`). -/
def login (cfg : Config) (db : DB) (dto : LoginDto) (meta : SessionMetadata)
    (now : Nat) (jti sid : String) : Except AuthError (LoginResult × DB) :=
  match findByEmail db dto.email with
  | none => .error (.unauthorized "Invalid credentials")
  | some user =>
      if bcryptCompare dto.password user.password then
        let refreshToken := signRefresh cfg ⟨user.id, user.tokenVersion, jti⟩ now
        let refreshHash := bcryptHash refreshToken
        let expiresAt := now + cfg.refreshTtl
        if db.sessions.any (fun s => decide (s.jti = jti) || decide (s.id = sid)) then
          .error (.internal "Unique constraint failed")
        else
          let session : Session :=
            { id := sid, userId := user.id, jti := jti, refreshHash := refreshHash,
              platform := dto.platform, deviceLabel := dto.deviceLabel,
              userAgent := meta.userAgent, ip := meta.ip, expiresAt := expiresAt,
              revokedAt := none, replacedByJti := none,
              createdAt := now, lastUsedAt := now }
          let accessToken := signAccess cfg ⟨user.id, user.tokenVersion, jti⟩ now
          .ok ({ accessToken := accessToken, refreshToken := refreshToken,
                 userId := user.id, userEmail := user.email },
               { db with sessions := db.sessions ++ [session] })
      else .error (.unauthorized "Invalid credentials")

/-- Result of AuthService.refresh. -/
structure RefreshResult where
  accessToken : Jwt
  refreshToken : Jwt
deriving DecidableEq, Repr

/-- AuthService.refresh: verify the token, load the session by `jti`
(`include: {user}` resolved lazily: the source reads `session.user` only at
the tokenVersion check, after the revoked/expired/hash checks), run the five
checks in source order, then rotate inside one `prisma.$transaction`:
revoke the old row (`revokedAt, replacedByJti`) and insert the successor
carrying the metadata forward.  `newJti`/`newSid` model the generated
identifiers; the transaction fails as a whole on the oracle `txFail` or on a
unique-key collision of the inserted row. -/
def refresh (cfg : Config) (db : DB) (tok : Jwt) (now : Nat)
    (newJti newSid : String) (txFail : Bool) : Except AuthError (RefreshResult × DB) :=
  match jwtVerify cfg now tok with
  | none => .error (.unauthorized "Invalid or expired refresh token")
  | some p =>
      match findSession db p.jti with
      | none => .error (.unauthorized "Session not found")
      | some session =>
          if session.revokedAt.isSome then
            .error (.unauthorized "Refresh token has been revoked")
          else if session.expiresAt < now then
            .error (.unauthorized "Session expired")
          else if !(bcryptCompare tok session.refreshHash) then
            .error (.unauthorized "Invalid refresh token")
          else
            match findUserById db session.userId with
            | none => .error (.internal "session.user is null")
            | some user =>
                if p.tokenVersion ≠ user.tokenVersion then
                  .error (.unauthorized "Token has been globally revoked")
                else
                  let newRefreshToken :=
                    signRefresh cfg ⟨p.sub, user.tokenVersion, newJti⟩ now
                  let newRefreshHash := bcryptHash newRefreshToken
                  let newExpiresAt := now + cfg.refreshTtl
                  let newSession : Session :=
                    { id := newSid, userId := p.sub, jti := newJti,
                      refreshHash := newRefreshHash, platform := session.platform,
                      deviceLabel := session.deviceLabel,
                      userAgent := session.userAgent, ip := session.ip,
                      expiresAt := newExpiresAt, revokedAt := none,
                      replacedByJti := none, createdAt := now, lastUsedAt := now }
                  if txFail ||
                     db.sessions.any (fun s => decide (s.jti = newJti) || decide (s.id = newSid)) then
                    .error (.internal "Transaction failed")
                  else
                    let newAccessToken :=
                      signAccess cfg ⟨p.sub, user.tokenVersion, newJti⟩ now
                    .ok ({ accessToken := newAccessToken,
                           refreshToken := newRefreshToken },
                         { db with sessions :=
                             (db.sessions.map (fun s =>
                               if s.id = session.id then
                                 { s with revokedAt := some now,
                                          replacedByJti := some newJti }
                               else s)) ++ [newSession] })

/-- State reached by a refresh call: the new database on success, the old
one unchanged when the call throws. -/
def refreshState (cfg : Config) (db : DB) (tok : Jwt) (now : Nat)
    (newJti newSid : String) (txFail : Bool) : DB :=
  match refresh cfg db tok now newJti newSid txFail with
  | .error _ => db
  | .ok r => r.2

/-- Prisma `session.update({where:{jti}, data:{revokedAt: new Date()}})`,
shared by `logout` and `logoutDevice`. -/
def revokeSessionAt (db : DB) (jti : String) (now : Nat) : DB :=
  { db with sessions := db.sessions.map (fun s =>
      if s.jti = jti then { s with revokedAt := some now } else s) }

/-- AuthService.logout: load by `jti`, check ownership, reject when already
revoked, else set `revokedAt`. -/
def logout (db : DB) (userId jti : String) (now : Nat) : Except AuthError (String × DB) :=
  match findSession db jti with
  | none => .error (.badRequest "Session not found")
  | some session =>
      if session.userId ≠ userId then
        .error (.unauthorized "Not authorized to revoke this session")
      else if session.revokedAt.isSome then
        .error (.badRequest "Session already logged out")
      else
        .ok ("Logged out successfully", revokeSessionAt db jti now)

/-- AuthService.logoutDevice: load by the target `jti`, check ownership,
then set `revokedAt` unconditionally (no already-revoked check, and no
comparison of the target `jti` with the caller's current session `jti` —
the caller's own `jti` is not even an argument). -/
def logoutDevice (db : DB) (targetJti userId : String) (now : Nat) :
    Except AuthError (String × DB) :=
  match findSession db targetJti with
  | none => .error (.badRequest "Session not found")
  | some session =>
      if session.userId ≠ userId then
        .error (.unauthorized "Not authorized to revoke this session")
      else
        .ok ("Device logged out successfully", revokeSessionAt db targetJti now)

/-- AuthService.revokeAll: a single `bumpTokenVersion` and a message. -/
def revokeAll (db : DB) (userId : String) : Except AuthError (String × DB) :=
  match bumpTokenVersion db userId with
  | .error e => .error e
  | .ok db1 => .ok ("All sessions revoked successfully", db1)

/-- The authenticated principal exposed to handlers: user plus current `jti`. -/
structure AuthResult where
  user : User
  jti : String
deriving DecidableEq, Repr

/-- JwtStrategy.validate: user lookup, tokenVersion comparison, session
lookup by `jti`, revocation and expiry checks, in source order. -/
def validatePayload (db : DB) (now : Nat) (p : JwtPayload) : Except AuthError AuthResult :=
  match findUserById db p.sub with
  | none => .error (.unauthorized "User not found")
  | some user =>
      if p.tokenVersion ≠ user.tokenVersion then
        .error (.unauthorized "Token has been revoked (global logout)")
      else
        match findSession db p.jti with
        | none => .error (.unauthorized "Session not found")
        | some session =>
            if session.revokedAt.isSome then
              .error (.unauthorized "Session has been logged out")
            else if session.expiresAt < now then
              .error (.unauthorized "Session expired")
            else
              .ok { user := user, jti := p.jti }

/-- The full request authenticator: passport verifies signature and expiry
(`ignoreExpiration: false`, `secretOrKey: JWT_SECRET`), then
`JwtStrategy.validate` runs on the payload. -/
def authenticate (cfg : Config) (db : DB) (now : Nat) (tok : Jwt) :
    Except AuthError AuthResult :=
  match jwtVerify cfg now tok with
  | none => .error (.unauthorized "Unauthorized")
  | some p => validatePayload db now p

/-- The successor session inserted by a successful rotation (the record
literal of the `prisma.session.create` inside the `$transaction`). -/
def successorSession (cfg : Config) (tok : Jwt) (user : User) (s : Session)
    (now : Nat) (newJti newSid : String) : Session :=
  { id := newSid, userId := tok.payload.sub, jti := newJti,
    refreshHash := bcryptHash (signRefresh cfg ⟨tok.payload.sub, user.tokenVersion, newJti⟩ now),
    platform := s.platform, deviceLabel := s.deviceLabel,
    userAgent := s.userAgent, ip := s.ip, expiresAt := now + cfg.refreshTtl,
    revokedAt := none, replacedByJti := none, createdAt := now, lastUsedAt := now }

/-- The user record `register` creates (lowercased email, `tokenVersion = 0`). -/
def registeredUser (email pw uid : String) (now : Nat) : User :=
  { id := uid, email := lowercase email, password := bcryptHash pw,
    tokenVersion := 0, createdAt := now }

/-- Scenario for the rotation-chain claims: one user, one login, then a
sequence of refreshes at a fixed instant `now`, with `jtiF k` / `sidF k`
supplying the identifiers generated at step `k` (step 0 is the login). -/
structure Env where
  cfg : Config
  u : User
  dto : LoginDto
  meta : SessionMetadata
  now : Nat
  jtiF : Nat → String
  sidF : Nat → String

/-- The refresh token issued at chain step `k` of the scenario. -/
def Env.rtok (e : Env) (k : Nat) : Jwt :=
  ⟨⟨e.u.id, e.u.tokenVersion, e.jtiF k⟩, e.now + e.cfg.refreshTtl, e.cfg.secret⟩

/-- The session created at chain step `k`, still live. -/
def Env.liveNode (e : Env) (k : Nat) : Session :=
  { id := e.sidF k, userId := e.u.id, jti := e.jtiF k,
    refreshHash := bcryptHash (e.rtok k), platform := e.dto.platform,
    deviceLabel := e.dto.deviceLabel, userAgent := e.meta.userAgent, ip := e.meta.ip,
    expiresAt := e.now + e.cfg.refreshTtl, revokedAt := none, replacedByJti := none,
    createdAt := e.now, lastUsedAt := e.now }

/-- The session of chain step `k` after it has been rotated away. -/
def Env.deadNode (e : Env) (k : Nat) : Session :=
  { e.liveNode k with revokedAt := some e.now, replacedByJti := some (e.jtiF (k+1)) }

/-- The database after `k` successful refreshes: `k` revoked predecessors in
chain order followed by the live tail. -/
def Env.chainDb (e : Env) (k : Nat) : DB :=
  ⟨[e.u], ((List.range k).map e.deadNode) ++ [e.liveNode k], []⟩

/-- The database the scenario starts from: just the user. -/
def Env.initDb (e : Env) : DB := ⟨[e.u], [], []⟩

/-- Login followed by `k` sequential refreshes, each presenting the most
recently returned refresh token; `none` when any step fails. -/
def Env.iter (e : Env) : Nat → Option (DB × Jwt)
  | 0 =>
      match login e.cfg e.initDb e.dto e.meta e.now (e.jtiF 0) (e.sidF 0) with
      | .ok r => some (r.2, r.1.refreshToken)
      | .error _ => none
  | k+1 =>
      match Env.iter e k with
      | none => none
      | some st =>
          match refresh e.cfg st.1 st.2 e.now (e.jtiF (k+1)) (e.sidF (k+1)) false with
          | .ok r => some (r.2, r.1.refreshToken)
          | .error _ => none

/-- Side conditions for the chain scenario up to `n` refreshes: a positive
refresh TTL, credentials that match the user, and pairwise-distinct
generated identifiers (what `randomUUID`/cuid guarantee in the source). -/
def Env.Valid (e : Env) (n : Nat) : Prop :=
  0 < e.cfg.refreshTtl ∧
  lowercase e.dto.email = e.u.email ∧
  e.u.password = bcryptHash e.dto.password ∧
  (∀ i < n+1, ∀ j < n+1, i ≠ j → e.jtiF i ≠ e.jtiF j) ∧
  (∀ i < n+1, ∀ j < n+1, i ≠ j → e.sidF i ≠ e.sidF j)

instance (e : Env) (n : Nat) : Decidable (e.Valid n) := by
  unfold Env.Valid
  infer_instance

/-! ### Concrete example world (used to exhibit witnesses and counterexamples) -/

/-- Example configuration: 15-minute access TTL, 7-day refresh TTL (in ms). -/
def exCfg : Config := ⟨"secret", 900000, 604800000⟩

/-- Example user with password "pw123456" and `tokenVersion = 0`. -/
def exUser : User := ⟨"u1", "a@x.com", bcryptHash "pw123456", 0, 0⟩

/-- The refresh token the example login at instant 0 issues for jti "j1". -/
def exRtok : Jwt := ⟨⟨"u1", 0, "j1"⟩, 604800000, "secret"⟩

/-- An access token for the same session, minted at instant 0. -/
def exAtok : Jwt := ⟨⟨"u1", 0, "j1"⟩, 900000, "secret"⟩

/-- The live chain-root session of the example login. -/
def exSession : Session :=
  ⟨"s1", "u1", "j1", bcryptHash exRtok, .WEB, none, none, none,
   604800000, none, none, 0, 0⟩

/-- Example database right after the login. -/
def exDb : DB := ⟨[exUser], [exSession], []⟩

/-- The example session already rotated away / revoked at instant 5. -/
def exSessionRevoked : Session := { exSession with revokedAt := some 5 }

/-- Example database in which the presented session is already revoked. -/
def exDbRevoked : DB := ⟨[exUser], [exSessionRevoked], []⟩

/-- The refresh token minted by rotating the example session to jti "j2". -/
def exRtok2 : Jwt := ⟨⟨"u1", 0, "j2"⟩, 604800000, "secret"⟩

/-- The access token minted by that rotation. -/
def exAtok2 : Jwt := ⟨⟨"u1", 0, "j2"⟩, 900000, "secret"⟩

/-- The example root session after the rotation revoked it. -/
def exSessionRot : Session :=
  { exSession with revokedAt := some 0, replacedByJti := some "j2" }

/-- The successor session created by the rotation. -/
def exSession2 : Session :=
  ⟨"s2", "u1", "j2", bcryptHash exRtok2, .WEB, none, none, none,
   604800000, none, none, 0, 0⟩

/-- The example database after one rotation. -/
def exDbRot : DB := ⟨[exUser], [exSessionRot, exSession2], []⟩

/-- The example database after a `revokeAll` (tokenVersion bumped to 1). -/
def exDbBumped : DB := ⟨[{ exUser with tokenVersion := 1 }], [exSession], []⟩

/-- A second, already-revoked session "jr" of the same user. -/
def exSessionR : Session :=
  ⟨"sr", "u1", "jr", bcryptHash exRtok, .WEB, none, none, none,
   604800000, some 5, none, 0, 0⟩

/-- Example database with one live session and one revoked session. -/
def exDb2 : DB := ⟨[exUser], [exSession, exSessionR], []⟩

/-- A session whose `expiresAt` is exactly the probing instant 100. -/
def exSessionB : Session :=
  ⟨"s1", "u1", "j1", bcryptHash exRtok, .WEB, none, none, none,
   100, none, none, 0, 0⟩

/-- Example database for the boundary-expiry probe. -/
def exDbB : DB := ⟨[exUser], [exSessionB], []⟩

/-- Login attempt with an email no user has. -/
def exDto1 : LoginDto := ⟨"b@x.com", "pw123456", .WEB, none⟩

/-- Login attempt with a known email but a wrong password. -/
def exDto2 : LoginDto := ⟨"a@x.com", "wrongpw", .WEB, none⟩

/-- Example request metadata. -/
def exMeta : SessionMetadata := ⟨.WEB, none, none, none⟩

/-- Id supply for category rows in examples. -/
def exCatIdF : Nat → String := fun k => "cat" ++ toString k

/-- Concrete chain scenario: the example user logging in at instant 0 and
refreshing, with identifiers "jj0", "jj1", … and "ss0", "ss1", …. -/
def exEnv : Env :=
  ⟨exCfg, exUser, ⟨"a@x.com", "pw123456", .WEB, none⟩,
   ⟨.WEB, none, none, none⟩, 0,
   fun k => "jj" ++ toString k, fun k => "ss" ++ toString k⟩

/-! ### Helper lemmas -/

theorem jwtVerify_eq_some {cfg : Config} {now : Nat} {t : Jwt} {p : JwtPayload}
    (h : jwtVerify cfg now t = some p) : p = t.payload := by
  unfold jwtVerify at h
  split at h
  · exact (Option.some.inj h).symm
  · exact absurd h (by simp)

theorem jwtVerify_valid {cfg : Config} {now : Nat} {t : Jwt} {p : JwtPayload}
    (h : jwtVerify cfg now t = some p) : t.secret = cfg.secret ∧ now < t.exp := by
  unfold jwtVerify at h
  split at h
  · assumption
  · exact absurd h (by simp)

theorem find?_append_left_none {α : Type} {l1 l2 : List α} {p : α → Bool}
    (h : ∀ a ∈ l1, p a = false) : (l1 ++ l2).find? p = l2.find? p := by
  induction l1 with
  | nil => rfl
  | cons a l ih =>
      rw [List.cons_append, List.find?_cons_of_neg _ (by simp [h a (by simp)]),
          ih (fun x hx => h x (by simp [hx]))]

theorem map_eq_self_of_fixed {α : Type} {l : List α} {f : α → α}
    (h : ∀ a ∈ l, f a = a) : l.map f = l := by
  induction l with
  | nil => rfl
  | cons a l ih =>
      rw [List.map_cons, h a (by simp), ih (fun x hx => h x (by simp [hx]))]

theorem find?_map_comm {α β : Type} {f : α → β} {p : β → Bool} {q : α → Bool}
    {l : List α} (hpq : ∀ a, p (f a) = q a) :
    (l.map f).find? p = (l.find? q).map f := by
  induction l with
  | nil => rfl
  | cons a l ih =>
      rw [List.map_cons]
      cases hq : q a with
      | true =>
          rw [List.find?_cons_of_pos _ (by rw [hpq a, hq]),
              List.find?_cons_of_pos _ hq, Option.map_some']
      | false =>
          rw [List.find?_cons_of_neg _ (by simp [hpq a, hq]),
              List.find?_cons_of_neg _ (by simp [hq]), ih]

theorem any_false_forall {α : Type} {l : List α} {p : α → Bool}
    (h : l.any p = false) : ∀ a ∈ l, p a = false := by
  intro a ha
  have := List.any_eq_false.mp h a ha
  exact Bool.eq_false_iff.mpr this

/-- After `bumpTokenVersion` succeeds, looking the user up again returns the
record with `tokenVersion` one higher, and nothing but `users` changed. -/
theorem bumpTokenVersion_spec {db db1 : DB} {uid : String} {u : User}
    (hu : findUserById db uid = some u)
    (h : bumpTokenVersion db uid = .ok db1) :
    findUserById db1 uid = some { u with tokenVersion := u.tokenVersion + 1 } ∧
    db1.sessions = db.sessions ∧ db1.categories = db.categories := by
  unfold bumpTokenVersion at h
  rw [hu] at h
  have hdb1 : db1 = { db with users := db.users.map (fun v =>
      if v.id = uid then { v with tokenVersion := v.tokenVersion + 1 } else v) } :=
    (Except.ok.inj h).symm
  subst hdb1
  refine ⟨?_, rfl, rfl⟩
  unfold findUserById at hu ⊢
  rw [find?_map_comm (q := fun v => decide (v.id = uid)) (fun a => by
        by_cases ha : a.id = uid <;> simp [ha])]
  rw [hu, Option.map_some']
  have hid : u.id = uid := by
    have := List.find?_some hu
    simpa using this
  simp [hid]

/-! ### Claim theorems -/

/-- C2: presenting a refresh token whose session row is revoked fails with
an `Unauthorized` error and performs no writes: the resulting state is the
old state unchanged (in particular no other session of the chain is revoked
and the owning user's `tokenVersion` is untouched). -/
theorem refresh_reuse_rejected_no_writes (cfg : Config) (db : DB) (tok : Jwt)
    (now : Nat) (newJti newSid : String) (txFail : Bool) (s : Session)
    (hs : findSession db tok.payload.jti = some s)
    (hrev : s.revokedAt.isSome = true) :
    (∃ m, refresh cfg db tok now newJti newSid txFail = .error (.unauthorized m)) ∧
    refreshState cfg db tok now newJti newSid txFail = db := by
  have key : ∃ m, refresh cfg db tok now newJti newSid txFail =
      .error (.unauthorized m) := by
    cases hv : jwtVerify cfg now tok with
    | none =>
        exact ⟨"Invalid or expired refresh token", by simp [refresh, hv]⟩
    | some p =>
        have hp : p = tok.payload := jwtVerify_eq_some hv
        subst hp
        exact ⟨"Refresh token has been revoked", by simp [refresh, hv, hs, hrev]⟩
  refine ⟨key, ?_⟩
  obtain ⟨m, hm⟩ := key
  unfold refreshState
  rw [hm]

/-- C4: `revokeAll` increments the target user's `tokenVersion` by exactly
one and writes nothing else: every session row and every category row is
bit-for-bit unchanged, other users are untouched, and no user row is added
or removed. -/
theorem revokeAll_increments_only_target (db : DB) (uid : String) (u : User)
    (hu : findUserById db uid = some u) :
    ∃ db1, revokeAll db uid = .ok ("All sessions revoked successfully", db1) ∧
      findUserById db1 uid = some { u with tokenVersion := u.tokenVersion + 1 } ∧
      db1.sessions = db.sessions ∧
      db1.categories = db.categories ∧
      (∀ v ∈ db.users, v.id ≠ uid → v ∈ db1.users) ∧
      (∀ v ∈ db1.users, v.id ≠ uid → v ∈ db.users) ∧
      db1.users.length = db.users.length := by
  have hb : bumpTokenVersion db uid = .ok { db with users := db.users.map (fun v =>
      if v.id = uid then { v with tokenVersion := v.tokenVersion + 1 } else v) } := by
    unfold bumpTokenVersion
    rw [hu]
  refine ⟨{ db with users := db.users.map (fun v =>
      if v.id = uid then { v with tokenVersion := v.tokenVersion + 1 } else v) },
    ?_, ?_, rfl, rfl, ?_, ?_, by simp⟩
  · simp [revokeAll, hb]
  · exact (bumpTokenVersion_spec hu hb).1
  · intro v hv hne
    refine List.mem_map.mpr ⟨v, hv, ?_⟩
    simp [hne]
  · intro v hv hne
    obtain ⟨w, hw, hfw⟩ := List.mem_map.mp hv
    by_cases hwid : w.id = uid
    · exfalso
      apply hne
      rw [← hfw]
      simp [hwid]
    · rw [← hfw]
      simpa [hwid] using hw

/-- C8: a login whose email matches no user and a login whose email matches
a user but whose password comparison fails produce the very same
client-visible error: `Unauthorized` with message "Invalid credentials". -/
theorem login_failures_indistinguishable (cfg : Config) (db1 db2 : DB)
    (dto1 dto2 : LoginDto) (m1 m2 : SessionMetadata) (n1 n2 : Nat)
    (j1 s1 j2 s2 : String) (u : User)
    (h1 : findByEmail db1 dto1.email = none)
    (h2 : findByEmail db2 dto2.email = some u)
    (hpw : bcryptCompare dto2.password u.password = false) :
    login cfg db1 dto1 m1 n1 j1 s1 = .error (.unauthorized "Invalid credentials") ∧
    login cfg db2 dto2 m2 n2 j2 s2 = .error (.unauthorized "Invalid credentials") := by
  constructor
  · unfold login
    rw [h1]
  · unfold login
    rw [h2]
    simp only [hpw, Bool.false_eq_true, if_false]

/-- C10: `logoutDevice` checks only that the target session exists and is
owned by the caller; the caller's own current-session `jti` is not even an
argument, so a caller passing the `jti` of the session backing their own
request succeeds and that session is revoked. -/
theorem logoutDevice_no_self_check (db : DB) (jti uid : String) (now : Nat)
    (s : Session) (hs : findSession db jti = some s) (hown : s.userId = uid) :
    logoutDevice db jti uid now =
      .ok ("Device logged out successfully", revokeSessionAt db jti now) ∧
    { s with revokedAt := some now } ∈ (revokeSessionAt db jti now).sessions := by
  have hjti : s.jti = jti := by
    have := List.find?_some hs
    simpa using this
  constructor
  · unfold logoutDevice
    rw [hs]
    simp [hown]
  · refine List.mem_map.mpr ⟨s, List.mem_of_find?_eq_some hs, ?_⟩
    simp [hjti]

theorem findSession_revokeSessionAt (db : DB) (j j2 : String) (now : Nat) :
    findSession (revokeSessionAt db j now) j2 =
    (findSession db j2).map (fun s =>
      if s.jti = j then { s with revokedAt := some now } else s) := by
  unfold findSession revokeSessionAt
  exact find?_map_comm (fun a => by by_cases h : a.jti = j <;> simp [h])

/-- Inversion of a successful `refresh`: every check passed and the result
is exactly the rotated database. -/
theorem refresh_ok_inv {cfg : Config} {db : DB} {tok : Jwt} {now : Nat}
    {newJti newSid : String} {txFail : Bool} {r : RefreshResult} {db1 : DB}
    (h : refresh cfg db tok now newJti newSid txFail = .ok (r, db1)) :
    ∃ s user,
      findSession db tok.payload.jti = some s ∧
      s.revokedAt = none ∧
      ¬ s.expiresAt < now ∧
      bcryptCompare tok s.refreshHash = true ∧
      findUserById db s.userId = some user ∧
      tok.payload.tokenVersion = user.tokenVersion ∧
      txFail = false ∧
      db.sessions.any (fun x => decide (x.jti = newJti) || decide (x.id = newSid)) = false ∧
      r = ⟨signAccess cfg ⟨tok.payload.sub, user.tokenVersion, newJti⟩ now,
           signRefresh cfg ⟨tok.payload.sub, user.tokenVersion, newJti⟩ now⟩ ∧
      db1 = { db with sessions :=
          (db.sessions.map (fun x => if x.id = s.id then
              { x with revokedAt := some now, replacedByJti := some newJti } else x))
          ++ [successorSession cfg tok user s now newJti newSid] } := by
  cases hv : jwtVerify cfg now tok with
  | none => simp [refresh, hv] at h
  | some p =>
      have hp : p = tok.payload := jwtVerify_eq_some hv
      subst hp
      simp only [refresh, hv] at h
      cases hsx : findSession db tok.payload.jti with
      | none => simp only [hsx] at h; exact absurd h (by simp)
      | some s =>
          simp only [hsx] at h
          by_cases h1 : s.revokedAt.isSome = true
          · simp only [h1, if_true] at h; exact absurd h (by simp)
          rw [if_neg h1] at h
          by_cases h2 : s.expiresAt < now
          · rw [if_pos h2] at h; exact absurd h (by simp)
          rw [if_neg h2] at h
          by_cases h3 : bcryptCompare tok s.refreshHash = true
          · rw [if_neg (by simp [h3])] at h
            cases hu : findUserById db s.userId with
            | none => simp only [hu] at h; exact absurd h (by simp)
            | some user =>
                simp only [hu] at h
                by_cases h5 : tok.payload.tokenVersion = user.tokenVersion
                · rw [if_neg (by simp [h5])] at h
                  by_cases h6 : (txFail || db.sessions.any
                      (fun x => decide (x.jti = newJti) || decide (x.id = newSid))) = true
                  · rw [if_pos h6] at h; exact absurd h (by simp)
                  · rw [if_neg h6] at h
                    rw [Except.ok.injEq, Prod.mk.injEq] at h
                    have h6' := Bool.or_eq_false_iff.mp (Bool.eq_false_iff.mpr h6)
                    exact ⟨s, user, rfl, Option.not_isSome_iff_eq_none.mp h1, h2, h3,
                      hu, h5, h6'.1, h6'.2, h.1.symm, h.2.symm⟩
                · rw [if_pos h5] at h; exact absurd h (by simp)
          · rw [if_pos (by simp [h3])] at h; exact absurd h (by simp)

/-- A successful `refresh` leaves both rotation writes visible: the
presented session revoked and forward-linked, and the successor row
retrievable by the new `jti`. -/
theorem refresh_ok_successor {cfg : Config} {db : DB} {tok : Jwt} {now : Nat}
    {newJti newSid : String} {txFail : Bool} {r : RefreshResult} {db1 : DB}
    (h : refresh cfg db tok now newJti newSid txFail = .ok (r, db1)) :
    ∃ s user, findSession db tok.payload.jti = some s ∧
      findSession db1 newJti =
        some (successorSession cfg tok user s now newJti newSid) ∧
      { s with revokedAt := some now, replacedByJti := some newJti } ∈ db1.sessions := by
  obtain ⟨s, user, hsx, hrev, hexp, hhash, hu, htv, htx, hany, hr, hdb1⟩ :=
    refresh_ok_inv h
  subst hdb1
  refine ⟨s, user, hsx, ?_, ?_⟩
  · have hleft : ∀ a ∈ db.sessions.map (fun x => if x.id = s.id then
        { x with revokedAt := some now, replacedByJti := some newJti } else x),
        (fun z : Session => decide (z.jti = newJti)) a = false := by
      intro a ha
      obtain ⟨x, hx, hfx⟩ := List.mem_map.mp ha
      have hxj : ¬ (x.jti = newJti) := by
        have := any_false_forall hany x hx
        simp only [Bool.or_eq_false_iff, decide_eq_false_iff_not] at this
        exact this.1
      have haj : a.jti = x.jti := by
        rw [← hfx]
        by_cases hid : x.id = s.id <;> simp [hid]
      simp [haj, hxj]
    show List.find? _ (_ ++ _) = _
    rw [find?_append_left_none hleft]
    simp [successorSession]
  · show _ ∈ _ ++ _
    refine List.mem_append.mpr (Or.inl ?_)
    exact List.mem_map.mpr ⟨s, List.mem_of_find?_eq_some hsx, by simp⟩

/-- C1: the rotation commits atomically.  On success the resulting state
contains both writes — the presented session revoked with its forward
pointer set to the new `jti`, and the live successor row — and on any
failure the call raises with the state unchanged, so no reachable state
exhibits a partial rotation. -/
theorem refresh_rotation_atomic (cfg : Config) (db : DB) (tok : Jwt) (now : Nat)
    (newJti newSid : String) (txFail : Bool) :
    (∀ r db1, refresh cfg db tok now newJti newSid txFail = .ok (r, db1) →
       ∃ s, findSession db tok.payload.jti = some s ∧
         { s with revokedAt := some now, replacedByJti := some newJti } ∈ db1.sessions ∧
         ∃ s2, findSession db1 newJti = some s2 ∧
           s2.revokedAt = none ∧ s2.replacedByJti = none ∧ s2.jti = newJti) ∧
    (∀ e, refresh cfg db tok now newJti newSid txFail = .error e →
       refreshState cfg db tok now newJti newSid txFail = db) := by
  constructor
  · intro r db1 h
    obtain ⟨s, user, hsx, hsucc, hmem⟩ := refresh_ok_successor h
    exact ⟨s, hsx, hmem, successorSession cfg tok user s now newJti newSid,
      hsucc, rfl, rfl, rfl⟩
  · intro e h
    unfold refreshState
    rw [h]

/-- C6 (amended): `logout` succeeds on a live owned session and rejects
every later call with `BadRequest` once `revokedAt` is set, while
`logoutDevice` does not reject an already-revoked target: it succeeds with
the success message again, overwriting `revokedAt` with the current time
(the session stays revoked; no other field changes). -/
theorem logout_strict_logoutDevice_tolerant (db : DB) (uid : String)
    (now now2 : Nat) :
    (∀ j s, findSession db j = some s → s.userId = uid → s.revokedAt = none →
       logout db uid j now = .ok ("Logged out successfully", revokeSessionAt db j now) ∧
       logout (revokeSessionAt db j now) uid j now2 =
         .error (.badRequest "Session already logged out")) ∧
    (∀ j s t, findSession db j = some s → s.userId = uid → s.revokedAt = some t →
       logout db uid j now = .error (.badRequest "Session already logged out")) ∧
    (∀ j s t, findSession db j = some s → s.userId = uid → s.revokedAt = some t →
       logoutDevice db j uid now2 =
         .ok ("Device logged out successfully", revokeSessionAt db j now2)) := by
  refine ⟨?_, ?_, ?_⟩
  · intro j s hs hown hlive
    have hfirst : logout db uid j now =
        .ok ("Logged out successfully", revokeSessionAt db j now) := by
      simp [logout, hs, hown, hlive]
    refine ⟨hfirst, ?_⟩
    have hjti : s.jti = j := by simpa using List.find?_some hs
    have hs2 : findSession (revokeSessionAt db j now) j =
        some { s with revokedAt := some now } := by
      rw [findSession_revokeSessionAt, hs]
      simp [hjti]
    simp [logout, hs2, hown]
  · intro j s t hs hown hrev
    simp [logout, hs, hown, hrev]
  · intro j s t hs hown hrev
    simp [logoutDevice, hs, hown]

/-- Frame facts about the best-effort default-category creation: it never
touches users or sessions, and when the store call fails nothing at all is
written (the failure is swallowed inside the method). -/
theorem createDefaultCategories_frame (db : DB) (userId : String)
    (idF : Nat → String) (b : Bool) :
    (createDefaultCategories db userId idF b).2.users = db.users ∧
    (createDefaultCategories db userId idF b).2.sessions = db.sessions ∧
    (b = true → (createDefaultCategories db userId idF b).2.categories = db.categories) := by
  unfold createDefaultCategories
  cases b <;> simp

/-- C9: registration conflicts exactly when a user already exists under the
lowercase-normalized email; otherwise the user is created with
`tokenVersion = 0` and the `{id, email, createdAt}` projection is returned,
and this holds whether or not the default-category creation fails (a
failure there is swallowed and leaves categories untouched). -/
theorem register_conflict_create_besteffort (db : DB) (email pw uid : String)
    (now : Nat) (catIdF : Nat → String) (catFail : Bool) :
    ((∃ u ∈ db.users, u.email = lowercase email) →
       register db email pw uid now catIdF catFail =
         .error (.conflict "User with this email already exists")) ∧
    ((∀ u ∈ db.users, u.email ≠ lowercase email) →
       ∃ db1, register db email pw uid now catIdF catFail =
           .ok ({ id := uid, email := lowercase email, createdAt := now }, db1) ∧
         db1.users = db.users ++ [registeredUser email pw uid now] ∧
         registeredUser email pw uid now ∈ db1.users ∧
         (registeredUser email pw uid now).tokenVersion = 0 ∧
         db1.sessions = db.sessions ∧
         (catFail = true → db1.categories = db.categories)) := by
  constructor
  · rintro ⟨u, hu, hmail⟩
    have hsome : (findByEmail db email).isSome = true := by
      unfold findByEmail
      exact List.find?_isSome.mpr ⟨u, hu, by simp [hmail]⟩
    obtain ⟨v, hv⟩ := Option.isSome_iff_exists.mp hsome
    simp [register, hv]
  · intro hno
    have hnone : findByEmail db email = none := by
      unfold findByEmail
      exact List.find?_eq_none.mpr (fun u hu => by simp [hno u hu])
    refine ⟨(createDefaultCategories
        { db with users := db.users ++ [registeredUser email pw uid now] }
        uid catIdF catFail).2, ?_, ?_, ?_, rfl, ?_, ?_⟩
    · simp [register, hnone, registeredUser]
    · exact (createDefaultCategories_frame _ _ _ _).1
    · rw [(createDefaultCategories_frame _ _ _ _).1]
      simp
    · exact (createDefaultCategories_frame _ _ _ _).2.1
    · exact (createDefaultCategories_frame _ _ _ _).2.2

/-- Inversion of a successful `JwtStrategy.validate`: all checks passed. -/
theorem validatePayload_ok_inv {db : DB} {now : Nat} {p : JwtPayload}
    {res : AuthResult} (h : validatePayload db now p = .ok res) :
    ∃ u, findUserById db p.sub = some u ∧ p.tokenVersion = u.tokenVersion ∧
      ∃ s, findSession db p.jti = some s ∧ s.revokedAt = none ∧
        ¬ s.expiresAt < now := by
  cases hu : findUserById db p.sub with
  | none => simp [validatePayload, hu] at h
  | some u =>
      simp only [validatePayload, hu] at h
      by_cases htv : p.tokenVersion = u.tokenVersion
      · rw [if_neg (by simp [htv])] at h
        cases hs : findSession db p.jti with
        | none => rw [hs] at h; exact absurd h (by simp)
        | some s =>
            simp only [hs] at h
            by_cases h1 : s.revokedAt.isSome = true
            · rw [if_pos h1] at h; exact absurd h (by simp)
            · rw [if_neg h1] at h
              by_cases h2 : s.expiresAt < now
              · rw [if_pos h2] at h; exact absurd h (by simp)
              · exact ⟨u, rfl, htv, s, rfl,
                  Option.not_isSome_iff_eq_none.mp h1, h2⟩
      · rw [if_pos htv] at h
        exact absurd h (by simp)

/-- C5 (amended): the request authenticator accepts a bearer token only if
the signature verifies, the subject user exists, the embedded
`tokenVersion` equals the user's current one, and the session named by the
token's `jti` exists with `revokedAt` null and `expiresAt` not yet passed
(the boundary instant `expiresAt = now` is still accepted).  Consequently
every access token minted before a `revokeAll` — even one that is not
expired — fails authentication with `Unauthorized` afterwards. -/
theorem authenticate_checks_and_global_revoke (cfg : Config) (db : DB)
    (now : Nat) (tok : Jwt) :
    (∀ res, authenticate cfg db now tok = .ok res →
       tok.secret = cfg.secret ∧ now < tok.exp ∧
       ∃ u, findUserById db tok.payload.sub = some u ∧
         tok.payload.tokenVersion = u.tokenVersion ∧
         ∃ s, findSession db tok.payload.jti = some s ∧
           s.revokedAt = none ∧ ¬ s.expiresAt < now) ∧
    (∀ u m db1, findUserById db tok.payload.sub = some u →
       tok.payload.tokenVersion = u.tokenVersion →
       revokeAll db tok.payload.sub = .ok (m, db1) →
       ∃ msg, authenticate cfg db1 now tok = .error (.unauthorized msg)) := by
  constructor
  · intro res h
    cases hv : jwtVerify cfg now tok with
    | none => rw [authenticate, hv] at h; exact absurd h (by simp)
    | some p =>
        have hp : p = tok.payload := jwtVerify_eq_some hv
        subst hp
        have hval : validatePayload db now tok.payload = .ok res := by
          rw [authenticate, hv] at h
          exact h
        obtain ⟨hsec, hexp⟩ := jwtVerify_valid hv
        exact ⟨hsec, hexp, validatePayload_ok_inv hval⟩
  · intro u m db1 hu htv hrv
    have hb : bumpTokenVersion db tok.payload.sub = .ok db1 := by
      unfold revokeAll at hrv
      cases hbb : bumpTokenVersion db tok.payload.sub with
      | error e => rw [hbb] at hrv; exact absurd hrv (by simp)
      | ok d =>
          rw [hbb] at hrv
          have : d = db1 := by
            have := Except.ok.inj hrv
            exact congrArg Prod.snd this
          rw [← this]
    have hu1 := (bumpTokenVersion_spec hu hb).1
    cases hv : jwtVerify cfg now tok with
    | none => exact ⟨"Unauthorized", by rw [authenticate, hv]⟩
    | some p =>
        have hp : p = tok.payload := jwtVerify_eq_some hv
        subst hp
        refine ⟨"Token has been revoked (global logout)", ?_⟩
        simp only [authenticate, hv]
        simp only [validatePayload, hu1]
        rw [if_pos (by simp [htv])]

/-- The scenario login succeeds and creates the chain root. -/
theorem Env.login_eq (e : Env) {n : Nat} (hv : e.Valid n) :
    login e.cfg e.initDb e.dto e.meta e.now (e.jtiF 0) (e.sidF 0) =
      .ok ({ accessToken := signAccess e.cfg ⟨e.u.id, e.u.tokenVersion, e.jtiF 0⟩ e.now,
             refreshToken := e.rtok 0, userId := e.u.id, userEmail := e.u.email },
           e.chainDb 0) := by
  obtain ⟨hT, hE, hP, hJ, hS⟩ := hv
  have h1 : findByEmail (⟨[e.u], [], []⟩ : DB) e.dto.email = some e.u := by
    unfold findByEmail
    simp [List.find?, hE]
  have h2 : bcryptCompare e.dto.password e.u.password = true := by
    simp [bcryptCompare, hP, bcryptHash]
  show login e.cfg (⟨[e.u], [], []⟩ : DB) e.dto e.meta e.now (e.jtiF 0) (e.sidF 0) = _
  simp only [login, h1, h2, if_true, List.any_nil]
  simp [Env.chainDb, Env.liveNode, Env.rtok, signRefresh, signAccess, signToken]

/-- One refresh step of the scenario: rotating the live tail of a chain of
length `k+1` succeeds and yields the chain of length `k+2`. -/
theorem Env.refresh_step (e : Env) {n : Nat} (hv : e.Valid n) {k : Nat} (hk : k < n) :
    refresh e.cfg (e.chainDb k) (e.rtok k) e.now (e.jtiF (k+1)) (e.sidF (k+1)) false =
      .ok ({ accessToken := signAccess e.cfg ⟨e.u.id, e.u.tokenVersion, e.jtiF (k+1)⟩ e.now,
             refreshToken := e.rtok (k+1) },
           e.chainDb (k+1)) := by
  obtain ⟨hT, hE, hP, hJ, hS⟩ := hv
  have h0 : jwtVerify e.cfg e.now (e.rtok k) =
      some ⟨e.u.id, e.u.tokenVersion, e.jtiF k⟩ := by
    have hlt : e.now < (e.rtok k).exp := by
      show e.now < e.now + e.cfg.refreshTtl
      omega
    unfold jwtVerify
    rw [if_pos ⟨rfl, hlt⟩]
    rfl
  have hdeadjti : ∀ a ∈ (List.range k).map e.deadNode,
      (fun s : Session => decide (s.jti = e.jtiF k)) a = false := by
    intro a ha
    obtain ⟨i, hi, rfl⟩ := List.mem_map.mp ha
    have hik : i < k := List.mem_range.mp hi
    have hne : e.jtiF i ≠ e.jtiF k := hJ i (by omega) k (by omega) (by omega)
    simp [Env.deadNode, Env.liveNode, hne]
  have h1 : findSession (e.chainDb k) (e.jtiF k) = some (e.liveNode k) := by
    show List.find? _ (_ ++ _) = _
    rw [find?_append_left_none hdeadjti]
    simp [Env.liveNode]
  have h5 : findUserById (e.chainDb k) ((e.liveNode k).userId) = some e.u := by
    simp [findUserById, Env.chainDb, Env.liveNode, List.find?]
  have hany : ((e.chainDb k).sessions.any fun x =>
      decide (x.jti = e.jtiF (k+1)) || decide (x.id = e.sidF (k+1))) = false := by
    rw [List.any_eq_false]
    intro x hx
    rcases List.mem_append.mp hx with hx | hx
    · obtain ⟨i, hi, rfl⟩ := List.mem_map.mp hx
      have hik : i < k := List.mem_range.mp hi
      have hne1 : e.jtiF i ≠ e.jtiF (k+1) := hJ i (by omega) (k+1) (by omega) (by omega)
      have hne2 : e.sidF i ≠ e.sidF (k+1) := hS i (by omega) (k+1) (by omega) (by omega)
      simp [Env.deadNode, Env.liveNode, hne1, hne2]
    · have hxx : x = e.liveNode k := by simpa using hx
      subst hxx
      have hne1 : e.jtiF k ≠ e.jtiF (k+1) := hJ k (by omega) (k+1) (by omega) (by omega)
      have hne2 : e.sidF k ≠ e.sidF (k+1) := hS k (by omega) (k+1) (by omega) (by omega)
      simp [Env.liveNode, hne1, hne2]
  have hfix : ∀ a ∈ (List.range k).map e.deadNode,
      (fun x : Session => if x.id = (e.liveNode k).id then
        { x with revokedAt := some e.now, replacedByJti := some (e.jtiF (k+1)) }
      else x) a = a := by
    intro a ha
    obtain ⟨i, hi, rfl⟩ := List.mem_map.mp ha
    have hik : i < k := List.mem_range.mp hi
    have hne : e.sidF i ≠ e.sidF k := hS i (by omega) k (by omega) (by omega)
    simp [Env.deadNode, Env.liveNode, hne]
  have hmap : ((e.chainDb k).sessions.map (fun x =>
      if x.id = (e.liveNode k).id then
        { x with revokedAt := some e.now, replacedByJti := some (e.jtiF (k+1)) }
      else x)) = (List.range k).map e.deadNode ++ [e.deadNode k] := by
    show (((List.range k).map e.deadNode) ++ [e.liveNode k]).map _ = _
    rw [List.map_append, map_eq_self_of_fixed hfix]
    simp [Env.deadNode]
  have hrv : (e.liveNode k).revokedAt = none := rfl
  have hexp : ¬ ((e.liveNode k).expiresAt < e.now) := by
    show ¬ (e.now + e.cfg.refreshTtl < e.now)
    omega
  have hhash : bcryptCompare (e.rtok k) ((e.liveNode k).refreshHash) = true := by
    simp [bcryptCompare, Env.liveNode, bcryptHash]
  simp only [refresh, h0, h1, hrv, Option.isSome_none, Bool.false_eq_true, if_false,
    if_neg hexp, hhash, Bool.not_true, if_neg (by simp : ¬ (false = true)), h5,
    if_neg (by simp : ¬ (e.u.tokenVersion ≠ e.u.tokenVersion)), Bool.false_or, hany,
    hmap]
  simp [Env.chainDb, List.range_succ, Env.liveNode, Env.deadNode, Env.rtok,
    signRefresh, signAccess, signToken]

/-- Closed form of the scenario: after `k ≤ n` refreshes the state is
exactly the explicit chain database and the chain-tail refresh token. -/
theorem Env.iter_eq (e : Env) {n : Nat} (hv : e.Valid n) :
    ∀ k, k ≤ n → e.iter k = some (e.chainDb k, e.rtok k) := by
  intro k
  induction k with
  | zero =>
      intro _
      simp only [Env.iter, Env.login_eq e hv]
  | succ k ih =>
      intro hk
      have hik := ih (by omega)
      simp only [Env.iter, hik, Env.refresh_step e hv (show k < n by omega)]

/-- C3 (amended): starting from a fresh login, `n` sequential refreshes,
each presenting only the most recently returned refresh token, all succeed
and leave a chain of `n+1` session rows with exactly one live session (the
tail) and `n` revoked predecessors — the login root plus the `n-1` earlier
refresh-created rows — each predecessor's `replacedByJti` equal to the
`jti` of its immediate successor. -/
theorem refresh_chain_shape (e : Env) (n : Nat) (hv : e.Valid n) :
    e.iter n = some (e.chainDb n, e.rtok n) ∧
    (e.chainDb n).sessions.length = n + 1 ∧
    ((e.chainDb n).sessions.filter
       (fun s => s.revokedAt.isNone && decide (e.now < s.expiresAt))).length = 1 ∧
    (∀ s ∈ (e.chainDb n).sessions.take n, s.revokedAt = some e.now) ∧
    (∀ i, i < n → ∃ s s2, (e.chainDb n).sessions[i]? = some s ∧
       (e.chainDb n).sessions[i+1]? = some s2 ∧
       s.revokedAt.isSome = true ∧ s.replacedByJti = some s2.jti) ∧
    (e.chainDb n).sessions[n]? = some (e.liveNode n) ∧
    (e.liveNode n).revokedAt = none := by
  have hT : 0 < e.cfg.refreshTtl := hv.1
  have hlen : ((List.range n).map e.deadNode).length = n := by simp
  have hleft : ∀ i, i < n →
      ((List.range n).map e.deadNode ++ [e.liveNode n])[i]? = some (e.deadNode i) := by
    intro i hi
    rw [List.getElem?_append_left (by omega), List.getElem?_map,
        List.getElem?_range hi, Option.map_some']
  have hright : ((List.range n).map e.deadNode ++ [e.liveNode n])[n]? =
      some (e.liveNode n) := by
    rw [List.getElem?_append_right (by omega), hlen]
    simp
  refine ⟨Env.iter_eq e hv n le_rfl, by simp [Env.chainDb], ?_, ?_, ?_, hright, rfl⟩
  · have hnil : (((List.range n).map e.deadNode).filter
        (fun s => s.revokedAt.isNone && decide (e.now < s.expiresAt))) = [] := by
      refine List.filter_eq_nil_iff.mpr ?_
      intro a ha
      obtain ⟨i, hi, rfl⟩ := List.mem_map.mp ha
      simp [Env.deadNode, Env.liveNode]
    have hlt : e.now < e.now + e.cfg.refreshTtl := by omega
    show (((List.range n).map e.deadNode ++ [e.liveNode n]).filter _).length = 1
    rw [List.filter_append, hnil]
    simp [List.filter, Env.liveNode, hlt]
  · intro s hsm
    have htake : ((List.range n).map e.deadNode ++ [e.liveNode n]).take n =
        (List.range n).map e.deadNode := by
      exact List.take_left' hlen
    rw [show (e.chainDb n).sessions.take n =
        ((List.range n).map e.deadNode ++ [e.liveNode n]).take n from rfl, htake] at hsm
    obtain ⟨i, hi, rfl⟩ := List.mem_map.mp hsm
    rfl
  · intro i hi
    by_cases hin : i + 1 < n
    · exact ⟨e.deadNode i, e.deadNode (i+1), hleft i hi, hleft (i+1) hin,
        rfl, rfl⟩
    · have hin' : i + 1 = n := by omega
      subst hin'
      exact ⟨e.deadNode i, e.liveNode (i+1), hleft i hi, hright, rfl, rfl⟩

/-- C7: the successor created by every successful rotation carries the
predecessor's `platform`, `deviceLabel`, `userAgent` and `ip` unchanged,
and in the login-plus-`n`-refreshes scenario every session of the chain
still carries the metadata recorded at login. -/
theorem rotation_preserves_metadata :
    (∀ cfg db tok now newJti newSid txFail (r : RefreshResult) db1 s,
       findSession db tok.payload.jti = some s →
       refresh cfg db tok now newJti newSid txFail = .ok (r, db1) →
       ∃ s2, findSession db1 newJti = some s2 ∧
         s2.platform = s.platform ∧ s2.deviceLabel = s.deviceLabel ∧
         s2.userAgent = s.userAgent ∧ s2.ip = s.ip) ∧
    (∀ (e : Env) (n : Nat), e.Valid n → ∀ db2 tok2, e.iter n = some (db2, tok2) →
       ∀ s ∈ db2.sessions, s.platform = e.dto.platform ∧
         s.deviceLabel = e.dto.deviceLabel ∧
         s.userAgent = e.meta.userAgent ∧ s.ip = e.meta.ip) := by
  constructor
  · intro cfg db tok now newJti newSid txFail r db1 s hs h
    obtain ⟨s2, user, hs2, hsucc, hmem⟩ := refresh_ok_successor h
    have hss : s2 = s := by
      rw [hs] at hs2
      exact (Option.some.inj hs2).symm
    subst hss
    exact ⟨successorSession cfg tok user s2 now newJti newSid, hsucc,
      rfl, rfl, rfl, rfl⟩
  · intro e n hv db2 tok2 hit s hsm
    have hcl := Env.iter_eq e hv n le_rfl
    rw [hit] at hcl
    have hpair := Option.some.inj hcl
    have hdb : db2 = e.chainDb n := congrArg Prod.fst hpair
    subst hdb
    rcases List.mem_append.mp hsm with hsm | hsm
    · obtain ⟨i, hi, rfl⟩ := List.mem_map.mp hsm
      exact ⟨rfl, rfl, rfl, rfl⟩
    · have hss : s = e.liveNode n := by simpa using hsm
      subst hss
      exact ⟨rfl, rfl, rfl, rfl⟩

/-! ### Witnesses and counterexamples -/

/-- Witness for C1: a concrete rotation succeeds with both writes visible,
and a concrete failed transaction leaves the state unchanged. -/
theorem refresh_rotation_atomic_witness :
    (∃ s, findSession exDb exRtok.payload.jti = some s ∧
       { s with revokedAt := some 0, replacedByJti := some "j2" } ∈ exDbRot.sessions ∧
       ∃ s2, findSession exDbRot "j2" = some s2 ∧
         s2.revokedAt = none ∧ s2.replacedByJti = none ∧ s2.jti = "j2") ∧
    refreshState exCfg exDb exRtok 0 "j2" "s2" true = exDb :=
  ⟨(refresh_rotation_atomic exCfg exDb exRtok 0 "j2" "s2" false).1
      ⟨exAtok2, exRtok2⟩ exDbRot (by decide),
   (refresh_rotation_atomic exCfg exDb exRtok 0 "j2" "s2" true).2
      (.internal "Transaction failed") (by decide)⟩

/-- Witness for C2: replaying the token of the already-revoked example
session fails with `Unauthorized` and writes nothing. -/
theorem refresh_reuse_rejected_no_writes_witness :
    (∃ m, refresh exCfg exDbRevoked exRtok 10 "j2" "s2" false =
       .error (.unauthorized m)) ∧
    refreshState exCfg exDbRevoked exRtok 10 "j2" "s2" false = exDbRevoked :=
  refresh_reuse_rejected_no_writes exCfg exDbRevoked exRtok 10 "j2" "s2" false
    exSessionRevoked (by decide) (by decide)

/-- Counterexample for C3 as stated: after a fresh login and N = 1
successful refresh the chain holds exactly one revoked predecessor (the
login root), not N - 1 = 0, alongside the single live tail. -/
theorem refresh_chain_revoked_count_counterexample :
    (exEnv.iter 1).map (fun st =>
      ((st.1.sessions.filter (fun s => s.revokedAt.isSome)).length,
       (st.1.sessions.filter (fun s => s.revokedAt.isNone)).length)) =
      some (1, 1) := by
  decide

/-- Witness for C3 (amended) at N = 2. -/
theorem refresh_chain_shape_witness :
    exEnv.iter 2 = some (exEnv.chainDb 2, exEnv.rtok 2) ∧
    (exEnv.chainDb 2).sessions.length = 2 + 1 ∧
    ((exEnv.chainDb 2).sessions.filter
       (fun s => s.revokedAt.isNone && decide (exEnv.now < s.expiresAt))).length = 1 ∧
    (∀ s ∈ (exEnv.chainDb 2).sessions.take 2, s.revokedAt = some exEnv.now) ∧
    (∀ i, i < 2 → ∃ s s2, (exEnv.chainDb 2).sessions[i]? = some s ∧
       (exEnv.chainDb 2).sessions[i+1]? = some s2 ∧
       s.revokedAt.isSome = true ∧ s.replacedByJti = some s2.jti) ∧
    (exEnv.chainDb 2).sessions[2]? = some (exEnv.liveNode 2) ∧
    (exEnv.liveNode 2).revokedAt = none :=
  refresh_chain_shape exEnv 2 (by decide)

/-- Witness for C4: `revokeAll` on the example database. -/
theorem revokeAll_increments_only_target_witness :
    ∃ db1, revokeAll exDb "u1" = .ok ("All sessions revoked successfully", db1) ∧
      findUserById db1 "u1" = some { exUser with tokenVersion := exUser.tokenVersion + 1 } ∧
      db1.sessions = exDb.sessions ∧
      db1.categories = exDb.categories ∧
      (∀ v ∈ exDb.users, v.id ≠ "u1" → v ∈ db1.users) ∧
      (∀ v ∈ db1.users, v.id ≠ "u1" → v ∈ exDb.users) ∧
      db1.users.length = exDb.users.length :=
  revokeAll_increments_only_target exDb "u1" exUser (by decide)

/-- Counterexample for C5 as stated: at the boundary instant
`now = expiresAt = 100` the authenticator accepts the token although the
session's `expiresAt` is not in the future. -/
theorem authenticate_boundary_counterexample :
    authenticate exCfg exDbB 100 exAtok = .ok ⟨exUser, "j1"⟩ ∧
    findSession exDbB "j1" = some exSessionB ∧
    ¬ (100 < exSessionB.expiresAt) := by
  decide

/-- Witness for C5 (amended): the accepted example token satisfies all the
checks, and after a `revokeAll` the same token is rejected. -/
theorem authenticate_checks_and_global_revoke_witness :
    (exAtok.secret = exCfg.secret ∧ 0 < exAtok.exp ∧
     ∃ u, findUserById exDb exAtok.payload.sub = some u ∧
       exAtok.payload.tokenVersion = u.tokenVersion ∧
       ∃ s, findSession exDb exAtok.payload.jti = some s ∧
         s.revokedAt = none ∧ ¬ s.expiresAt < 0) ∧
    (∃ msg, authenticate exCfg exDbBumped 0 exAtok = .error (.unauthorized msg)) :=
  ⟨(authenticate_checks_and_global_revoke exCfg exDb 0 exAtok).1
      ⟨exUser, "j1"⟩ (by decide),
   (authenticate_checks_and_global_revoke exCfg exDb 0 exAtok).2
      exUser "All sessions revoked successfully" exDbBumped
      (by decide) (by decide) (by decide)⟩

/-- Counterexample for C6 as stated: a repeated `logoutDevice` on the
already-revoked session "jr" (revoked at 5) succeeds with the success
message but is not a no-op — it overwrites `revokedAt` with the current
time 9, changing the stored state. -/
theorem logoutDevice_not_noop_counterexample :
    logoutDevice exDb2 "jr" "u1" 9 =
      .ok ("Device logged out successfully", revokeSessionAt exDb2 "jr" 9) ∧
    revokeSessionAt exDb2 "jr" 9 ≠ exDb2 := by
  decide

/-- Witness for C6 (amended): first `logout` succeeds, the second fails
`BadRequest`; `logout` on the already-revoked "jr" fails `BadRequest`
while `logoutDevice` on it succeeds again. -/
theorem logout_strict_logoutDevice_tolerant_witness :
    (logout exDb2 "u1" "j1" 7 =
       .ok ("Logged out successfully", revokeSessionAt exDb2 "j1" 7) ∧
     logout (revokeSessionAt exDb2 "j1" 7) "u1" "j1" 9 =
       .error (.badRequest "Session already logged out")) ∧
    logout exDb2 "u1" "jr" 7 = .error (.badRequest "Session already logged out") ∧
    logoutDevice exDb2 "jr" "u1" 9 =
      .ok ("Device logged out successfully", revokeSessionAt exDb2 "jr" 9) :=
  ⟨(logout_strict_logoutDevice_tolerant exDb2 "u1" 7 9).1 "j1" exSession
      (by decide) (by decide) (by decide),
   (logout_strict_logoutDevice_tolerant exDb2 "u1" 7 9).2.1 "jr" exSessionR 5
      (by decide) (by decide) (by decide),
   (logout_strict_logoutDevice_tolerant exDb2 "u1" 7 9).2.2 "jr" exSessionR 5
      (by decide) (by decide) (by decide)⟩

/-- Witness for C7: the concrete rotation keeps the metadata, and all
sessions of the concrete 2-step chain carry the login metadata. -/
theorem rotation_preserves_metadata_witness :
    (∃ s2, findSession exDbRot "j2" = some s2 ∧
       s2.platform = exSession.platform ∧ s2.deviceLabel = exSession.deviceLabel ∧
       s2.userAgent = exSession.userAgent ∧ s2.ip = exSession.ip) ∧
    (∀ s ∈ (exEnv.chainDb 2).sessions, s.platform = exEnv.dto.platform ∧
       s.deviceLabel = exEnv.dto.deviceLabel ∧
       s.userAgent = exEnv.meta.userAgent ∧ s.ip = exEnv.meta.ip) :=
  ⟨rotation_preserves_metadata.1 exCfg exDb exRtok 0 "j2" "s2" false
      ⟨exAtok2, exRtok2⟩ exDbRot exSession (by decide) (by decide),
   rotation_preserves_metadata.2 exEnv 2 (by decide)
      (exEnv.chainDb 2) (exEnv.rtok 2) (by decide)⟩

/-- Witness for C8: unknown email and wrong password yield the identical
error on the example database. -/
theorem login_failures_indistinguishable_witness :
    login exCfg exDb exDto1 exMeta 0 "jx" "sx" =
      .error (.unauthorized "Invalid credentials") ∧
    login exCfg exDb exDto2 exMeta 0 "jy" "sy" =
      .error (.unauthorized "Invalid credentials") :=
  login_failures_indistinguishable exCfg exDb exDb exDto1 exDto2 exMeta exMeta
    0 0 "jx" "sx" "jy" "sy" exUser (by decide) (by decide) (by decide)

/-- Witness for C9: re-registering the existing email conflicts; a fresh
email registers with `tokenVersion = 0`, also when category creation fails. -/
theorem register_conflict_create_besteffort_witness :
    register exDb "A@x.com" "pw2" "u2" 3 exCatIdF false =
      .error (.conflict "User with this email already exists") ∧
    (∃ db1, register exDb "b@x.com" "pw2" "u2" 3 exCatIdF true =
         .ok ({ id := "u2", email := lowercase "b@x.com", createdAt := 3 }, db1) ∧
       db1.users = exDb.users ++ [registeredUser "b@x.com" "pw2" "u2" 3] ∧
       registeredUser "b@x.com" "pw2" "u2" 3 ∈ db1.users ∧
       (registeredUser "b@x.com" "pw2" "u2" 3).tokenVersion = 0 ∧
       db1.sessions = exDb.sessions ∧
       (true = true → db1.categories = exDb.categories)) :=
  ⟨(register_conflict_create_besteffort exDb "A@x.com" "pw2" "u2" 3
      exCatIdF false).1 (by decide),
   (register_conflict_create_besteffort exDb "b@x.com" "pw2" "u2" 3
      exCatIdF true).2 (by decide)⟩

/-- Witness for C10: the caller revokes the very session backing their
current request. -/
theorem logoutDevice_no_self_check_witness :
    logoutDevice exDb "j1" "u1" 7 =
      .ok ("Device logged out successfully", revokeSessionAt exDb "j1" 7) ∧
    { exSession with revokedAt := some 7 } ∈ (revokeSessionAt exDb "j1" 7).sessions :=
  logoutDevice_no_self_check exDb "j1" "u1" 7 exSession (by decide) (by decide)

end TestNest
